import Mathlib

/-!
Shallow embedding of `src/apps.rs` from the elefren repository: the `Scopes`
permission enumeration, the `App` application descriptor, the `AppBuilder`
fluent builder with its `build` finalizer, the two `TryInto<App>` conversions,
and the key-value shape of the derived serde serialization.

Rust `Cow<'a, str>` values are embedded as `String` (the `.into()` conversions
in `build` are identity at the string level), `Result<App>` as
`Except Error App`, and the mutating `&mut self` setters as functional updates
returning the new builder value.
-/

namespace Elefren

/-- Permission scope of the application, mirroring `enum Scopes` in
`src/apps.rs` with its seven variants. -/
inductive Scopes where
  | All
  | Follow
  | Read
  | ReadFollow
  | ReadWrite
  | Write
  | WriteFollow
deriving DecidableEq, Repr

/-- The `impl fmt::Display for Scopes` mapping from `src/apps.rs`: each variant
is written as its percent-encoded space-delimited scope string. -/
def Scopes.display : Scopes → String
  | .All => "read%20write%20follow"
  | .Follow => "follow"
  | .Read => "read"
  | .ReadFollow => "read%20follow"
  | .ReadWrite => "read%20write"
  | .Write => "write"
  | .WriteFollow => "write%20follow"

/-- The serde wire name of each variant, taken from the
`#[serde(rename = "...")]` attributes on `enum Scopes` in `src/apps.rs`:
plain space-joined words, not percent-encoded. -/
def Scopes.serdeRename : Scopes → String
  | .All => "read write follow"
  | .Follow => "follow"
  | .Read => "read"
  | .ReadFollow => "read follow"
  | .ReadWrite => "read write"
  | .Write => "write"
  | .WriteFollow => "write follow"

/-- The `impl Default for Scopes` in `src/apps.rs`: returns `Scopes::Read`. -/
def Scopes.defaultScopes : Scopes := Scopes.Read

/-- The error type of the crate. `errors.rs` is not part of the extracted
source; only the variant constructed in `src/apps.rs` is modelled:
`Error::MissingField(&'static str)`, carrying the missing field's name. -/
inductive Error where
  | MissingField (field : String)
deriving DecidableEq, Repr

/-- The `App` struct of `src/apps.rs`: a registrable application descriptor. -/
structure App where
  client_name : String
  redirect_uris : String
  scopes : Scopes
  website : Option String
deriving DecidableEq, Repr

/-- The `#[derive(Default)]` construction of `App`: each field takes its own
type's default — `String::default()` is the empty string, `Option::default()`
is `None`, and `Scopes::default()` is `Scopes::Read`. -/
def App.defaultApp : App :=
  { client_name := ""
    redirect_uris := ""
    scopes := Scopes.defaultScopes
    website := none }

/-- The `AppBuilder` struct of `src/apps.rs`: optional staged values for the
four descriptor fields, none pre-populated. -/
structure AppBuilder where
  client_name : Option String
  redirect_uris : Option String
  scopes : Option Scopes
  website : Option String
deriving DecidableEq, Repr

/-- `AppBuilder::new()`, which is `Default::default()`: every field unset. -/
def AppBuilder.new : AppBuilder :=
  { client_name := none
    redirect_uris := none
    scopes := none
    website := none }

/-- The `client_name` setter of `AppBuilder`: stores `Some(name.into())` and
returns the builder. -/
def AppBuilder.set_client_name (b : AppBuilder) (name : String) : AppBuilder :=
  { b with client_name := some name }

/-- The `redirect_uris` setter of `AppBuilder`: stores `Some(uris.into())` and
returns the builder. -/
def AppBuilder.set_redirect_uris (b : AppBuilder) (uris : String) : AppBuilder :=
  { b with redirect_uris := some uris }

/-- The `scopes` setter of `AppBuilder`: stores `Some(scopes)` and returns the
builder. -/
def AppBuilder.set_scopes (b : AppBuilder) (scopes : Scopes) : AppBuilder :=
  { b with scopes := some scopes }

/-- The `website` setter of `AppBuilder`: stores `Some(website.into())` and
returns the builder. -/
def AppBuilder.set_website (b : AppBuilder) (website : String) : AppBuilder :=
  { b with website := some website }

/-- `AppBuilder::build` from `src/apps.rs`: fails with
`Error::MissingField("client_name")` when `client_name` is unset (the `?` on
`ok_or_else`); otherwise substitutes `"urn:ietf:wg:oauth:2.0:oob"` for an
unset `redirect_uris`, `Scopes::Read` for unset `scopes`, and passes `website`
through via `map`. -/
def AppBuilder.build (b : AppBuilder) : Except Error App :=
  match b.client_name with
  | none => Except.error (Error.MissingField "client_name")
  | some name =>
      Except.ok
        { client_name := name
          redirect_uris := b.redirect_uris.getD "urn:ietf:wg:oauth:2.0:oob"
          scopes := b.scopes.getD Scopes.Read
          website := b.website }

/-- The `impl TryInto<App> for App` of `src/apps.rs`: `Ok(self)`. -/
def App.try_into (a : App) : Except Error App :=
  Except.ok a

/-- The `impl TryInto<App> for AppBuilder` of `src/apps.rs`:
`Ok(self.build()?)` — the `?` re-raises a build error, and a successful build
result is re-wrapped in `Ok`. -/
def AppBuilder.try_into (b : AppBuilder) : Except Error App :=
  match b.build with
  | Except.error e => Except.error e
  | Except.ok a => Except.ok a

/-- The derived serde serialization of `App`, at the key-value level: the four
fields in declaration order under their field names, with `scopes` rendered by
its serde rename string and `website` dropped entirely when `None` (the
`#[serde(skip_serializing_if = "Option::is_none")]` attribute). -/
def App.serialize (a : App) : List (String × String) :=
  [("client_name", a.client_name),
   ("redirect_uris", a.redirect_uris),
   ("scopes", a.scopes.serdeRename)] ++
  (match a.website with
   | none => []
   | some w => [("website", w)])

end Elefren

namespace Elefren

/-- C1: for every builder, `build` fails with `MissingField("client_name")`
exactly when `client_name` was never set, regardless of the other three
fields; and `build` succeeds exactly when `client_name` is set. -/
theorem build_fails_iff_no_client_name (b : AppBuilder) :
    (b.build = Except.error (Error.MissingField "client_name") ↔
      b.client_name = none) ∧
    (b.build).isOk = (b.client_name).isSome := by
  cases h : b.client_name <;>
    simp [AppBuilder.build, h, Except.isOk, Except.toBool]

/-- C2: a builder with `client_name` set and the other three fields unset
builds successfully into a descriptor with the out-of-band sentinel as
`redirect_uris`, `Read` scopes, and no website. -/
theorem build_default_substitution (b : AppBuilder) (n : String)
    (hc : b.client_name = some n) (hr : b.redirect_uris = none)
    (hs : b.scopes = none) (hw : b.website = none) :
    b.build = Except.ok
      { client_name := n
        redirect_uris := "urn:ietf:wg:oauth:2.0:oob"
        scopes := Scopes.Read
        website := none } := by
  simp [AppBuilder.build, hc, hr, hs, hw]

/-- Witness for C2 at the builder that only sets `client_name`. -/
theorem build_default_substitution_witness :
    (AppBuilder.new.set_client_name "elefren_test").build = Except.ok
      { client_name := "elefren_test"
        redirect_uris := "urn:ietf:wg:oauth:2.0:oob"
        scopes := Scopes.Read
        website := none } :=
  build_default_substitution (AppBuilder.new.set_client_name "elefren_test")
    "elefren_test" rfl rfl rfl rfl

/-- C3: the `Display` encoding of `Scopes` returns exactly the literal strings
of the table for each of the seven variants, and the default `Scopes` value is
`Read`. -/
theorem scopes_display_table :
    Scopes.display Scopes.All = "read%20write%20follow" ∧
    Scopes.display Scopes.Follow = "follow" ∧
    Scopes.display Scopes.Read = "read" ∧
    Scopes.display Scopes.ReadFollow = "read%20follow" ∧
    Scopes.display Scopes.ReadWrite = "read%20write" ∧
    Scopes.display Scopes.Write = "write" ∧
    Scopes.display Scopes.WriteFollow = "write%20follow" ∧
    Scopes.defaultScopes = Scopes.Read :=
  ⟨rfl, rfl, rfl, rfl, rfl, rfl, rfl, rfl⟩

/-- C4: a builder with all four fields set builds successfully into the
descriptor holding exactly those four values, with no default substitution or
alteration. -/
theorem build_field_fidelity (b : AppBuilder) (n r : String) (s : Scopes)
    (w : String) (hc : b.client_name = some n)
    (hr : b.redirect_uris = some r) (hs : b.scopes = some s)
    (hw : b.website = some w) :
    b.build = Except.ok
      { client_name := n
        redirect_uris := r
        scopes := s
        website := some w } := by
  simp [AppBuilder.build, hc, hr, hs, hw]

/-- Witness for C4 at the fully-set builder from the repository's test. -/
theorem build_field_fidelity_witness :
    ((((AppBuilder.new.set_client_name "foo-test").set_redirect_uris
        "http://example.com").set_scopes
        Scopes.ReadWrite).set_website "https://example.com").build =
      Except.ok
        { client_name := "foo-test"
          redirect_uris := "http://example.com"
          scopes := Scopes.ReadWrite
          website := some "https://example.com" } :=
  build_field_fidelity
    ((((AppBuilder.new.set_client_name "foo-test").set_redirect_uris
        "http://example.com").set_scopes
        Scopes.ReadWrite).set_website "https://example.com")
    "foo-test" "http://example.com" Scopes.ReadWrite "https://example.com"
    rfl rfl rfl rfl

/-- C5: the `TryInto<App>` conversion on an already-built `App` always
succeeds and returns the input unchanged. -/
theorem app_try_into_identity (a : App) :
    a.try_into = Except.ok a :=
  rfl

/-- C8: for every builder, the `TryInto<App>` conversion agrees with `build`
exactly — same descriptor on success, same error on failure. -/
theorem builder_try_into_eq_build (b : AppBuilder) :
    b.try_into = b.build := by
  cases h : b.build <;> simp [AppBuilder.try_into, h]

/-- C7: each of the four setters stores the given value for its field,
overwriting any previously stored value (the equations hold for an arbitrary
prior builder state), and returns the builder for chaining; none of them can
fail, being total functions. -/
theorem setters_store_and_overwrite (b : AppBuilder) (n r w : String)
    (s : Scopes) :
    (b.set_client_name n).client_name = some n ∧
    (b.set_redirect_uris r).redirect_uris = some r ∧
    (b.set_scopes s).scopes = some s ∧
    (b.set_website w).website = some w :=
  ⟨rfl, rfl, rfl, rfl⟩

/-- C9: each setter leaves the other three fields of the builder unchanged. -/
theorem setters_frame (b : AppBuilder) (n r w : String) (s : Scopes) :
    ((b.set_client_name n).redirect_uris = b.redirect_uris ∧
      (b.set_client_name n).scopes = b.scopes ∧
      (b.set_client_name n).website = b.website) ∧
    ((b.set_redirect_uris r).client_name = b.client_name ∧
      (b.set_redirect_uris r).scopes = b.scopes ∧
      (b.set_redirect_uris r).website = b.website) ∧
    ((b.set_scopes s).client_name = b.client_name ∧
      (b.set_scopes s).redirect_uris = b.redirect_uris ∧
      (b.set_scopes s).website = b.website) ∧
    ((b.set_website w).client_name = b.client_name ∧
      (b.set_website w).redirect_uris = b.redirect_uris ∧
      (b.set_website w).scopes = b.scopes) :=
  ⟨⟨rfl, rfl, rfl⟩, ⟨rfl, rfl, rfl⟩, ⟨rfl, rfl, rfl⟩, ⟨rfl, rfl, rfl⟩⟩

/-- C6: the serialization of every `App` is a flat key-value list whose keys
are exactly `client_name`, `redirect_uris`, `scopes`, and `website` — with
`website` omitted entirely when absent — and whose `scopes` value is the serde
rename string (space-joined words, e.g. `All` serializes as
`"read write follow"`, not `"read%20write%20follow"`). -/
theorem app_serialize_shape (a : App) :
    (a.serialize).map Prod.fst =
      (match a.website with
       | none => ["client_name", "redirect_uris", "scopes"]
       | some _ => ["client_name", "redirect_uris", "scopes", "website"]) ∧
    a.serialize =
      [("client_name", a.client_name),
       ("redirect_uris", a.redirect_uris),
       ("scopes", a.scopes.serdeRename)] ++
      (match a.website with
       | none => []
       | some w => [("website", w)]) ∧
    Scopes.serdeRename Scopes.All = "read write follow" := by
  refine ⟨?_, rfl, rfl⟩
  cases h : a.website <;> simp [App.serialize, h]

/-- C10: the derived `Default` construction of `App` bypasses the builder and
yields the empty string for `client_name`, the empty string (not the
out-of-band sentinel) for `redirect_uris`, `Read` scopes, and no website. -/
theorem app_default_values :
    App.defaultApp =
      { client_name := ""
        redirect_uris := ""
        scopes := Scopes.Read
        website := none } ∧
    App.defaultApp.redirect_uris ≠ "urn:ietf:wg:oauth:2.0:oob" := by
  exact ⟨rfl, by decide⟩

end Elefren
